import Mathlib

/-!
Verification of the ThinkStudio dashboard core (`dashboard.py`) against its
natural-language specification.  The Python source is shallowly embedded:
DataFrames become lists of records, pandas column operations become list
operations, session state becomes an explicit state structure, and fallible
loading returns `Except`.  Numeric cells use `ℚ` (exact rationals standing in
for the finite float values that actually occur), slider values use `ℤ`.
-/

deriving instance DecidableEq for Except

namespace ThinkStudio

/-! ## Record store (`REQUIRED`, `load_data_from_path` / `load_data_from_bytes`) -/

/-- The fixed list of required CSV columns (`REQUIRED` in `dashboard.py`). -/
def REQUIRED : List String :=
  ["id", "title", "organisation", "org_type", "country", "year",
   "scope", "link", "summary", "source", "date_added"]

/-- A parsed delimited table: a header row of column names plus data rows.
This models the output of `pd.read_csv` before schema validation. -/
structure Csv where
  header : List String
  rows : List (List String)
deriving DecidableEq, Repr

/-- One strategy record after loading: all text columns normalised to strings
(blank cells become the empty string via `.fillna("")`), and the year column
numeric-coerced, invalid/blank values becoming absent (`pd.to_numeric` with
`errors="coerce"` yields NaN, modelled as `none`). -/
structure Record where
  id : String
  title : String
  organisation : String
  org_type : String
  country : String
  year : Option ℚ
  scope : String
  link : String
  summary : String
  source : String
  date_added : String
deriving DecidableEq, Repr

/-- Errors a load can raise.  `dashboard.py` raises
`ValueError(f"Missing columns: {missing}")`; the spec calls this `SchemaError`
and requires it to name the missing columns, which the payload carries. -/
inductive LoadError where
  | schemaError (missing : List String)
deriving DecidableEq, Repr

/-- Cell lookup for a row under a header, `""` when the column is missing
(after `fillna("")` blank cells read as the empty string). -/
def cellOf (header row : List String) (col : String) : String :=
  match header.indexOf? col with
  | none => ""
  | some i => row.getD i ""

/-- Numeric coercion of the year cell (`pd.to_numeric(..., errors="coerce")`):
a decimal integer string parses, anything else (including blank) is absent. -/
def coerceYear (s : String) : Option ℚ :=
  (s.toInt?).map (fun n => (n : ℚ))

/-- Build a `Record` from one CSV row under a validated header. -/
def recordOfRow (header row : List String) : Record :=
  { id := cellOf header row "id"
    title := cellOf header row "title"
    organisation := cellOf header row "organisation"
    org_type := cellOf header row "org_type"
    country := cellOf header row "country"
    year := coerceYear (cellOf header row "year")
    scope := cellOf header row "scope"
    link := cellOf header row "link"
    summary := cellOf header row "summary"
    source := cellOf header row "source"
    date_added := cellOf header row "date_added" }

/-- `load_data_from_path` / `load_data_from_bytes` after parsing: checks that
every `REQUIRED` column occurs in the header, raising an error naming the
missing columns, else normalises rows into records. -/
def load_data (csv : Csv) : Except LoadError (List Record) :=
  let missing := REQUIRED.filter (fun c => !(csv.header.contains c))
  if missing.isEmpty then
    .ok (csv.rows.map (recordOfRow csv.header))
  else
    .error (.schemaError missing)

/-! ## Filter pipeline (`tab_explore` filter block) -/

/-- The year-range predicate `fdf["year"].between(lo, hi)`: pandas `between`
is inclusive on both ends and evaluates to `False` on NaN (absent year). -/
def yearBetween (lo hi : ℚ) (r : Record) : Bool :=
  match r.year with
  | none => false
  | some y => decide (lo ≤ y) && decide (y ≤ hi)

/-- The Explore-tab filter block: optional year range (`if yr:`), then the
three set-membership filters, each skipped when its selection list is empty
(an empty Python list is falsy), then the keyword search (`if q:`), modelled
here for the no-query path; non-empty queries go through `simple_search`. -/
def apply_filters (rs : List Record) (yr : Option (ℚ × ℚ))
    (org_type_sel country_sel scope_sel : List String) : List Record :=
  let f1 := match yr with
    | none => rs
    | some (lo, hi) => rs.filter (yearBetween lo hi)
  let f2 := if org_type_sel.isEmpty then f1
            else f1.filter (fun r => org_type_sel.contains r.org_type)
  let f3 := if country_sel.isEmpty then f2
            else f2.filter (fun r => country_sel.contains r.country)
  if scope_sel.isEmpty then f3
  else f3.filter (fun r => scope_sel.contains r.scope)

/-! ## Keyword search (`simple_search`)

`simple_search` builds `text = title + " " + organisation + " " + summary
+ " " + scope` per row and filters with
`text.str.contains(query, case=False, na=False)`.  Pandas `str.contains`
treats the query as a regular-expression pattern (`regex=True` by default)
and raises `re.error` on a malformed pattern.  We embed the fragment of
Python regular expressions that literal queries and the claims exercise:
patterns built from ordinary characters, the any-character metacharacter
`.` and grouping parentheses (no quantifiers, classes or alternation).
Compilation fails on unbalanced parentheses exactly as `re.compile` does. -/

/-- A compiled pattern token: a literal character or the `.` wildcard. -/
inductive RTok where
  | lit (c : Char)
  | dot
deriving DecidableEq, Repr

/-- Compile a pattern within the embedded regex fragment, tracking the open
parenthesis depth; an unmatched `(` or `)` is a compile error, mirroring
`re.error("missing ), unterminated subpattern")` / `re.error("unbalanced parenthesis")`.
Grouping parentheses have no effect on matching in this fragment, so they
compile away. -/
def compileRegex : List Char → Nat → Except String (List RTok)
  | [], 0 => .ok []
  | [], _ + 1 => .error "missing ), unterminated subpattern"
  | '(' :: rest, d => compileRegex rest (d + 1)
  | ')' :: rest, d + 1 => compileRegex rest d
  | ')' :: _, 0 => .error "unbalanced parenthesis"
  | '.' :: rest, d => (compileRegex rest d).map (RTok.dot :: ·)
  | c :: rest, d => (compileRegex rest d).map (RTok.lit c :: ·)

/-- Whether the token list matches a prefix of the character list. -/
def toksMatchAt : List RTok → List Char → Bool
  | [], _ => true
  | _ :: _, [] => false
  | .lit c :: ts, x :: xs => x == c && toksMatchAt ts xs
  | .dot :: ts, _ :: xs => toksMatchAt ts xs

/-- `re.search`: the pattern matches at some position in the text. -/
def regexSearch (ts : List RTok) : List Char → Bool
  | [] => toksMatchAt ts []
  | c :: cs => toksMatchAt ts (c :: cs) || regexSearch ts cs

/-- The concatenated search text of a record: the present columns among
`["title", "organisation", "summary", "scope"]` joined with single spaces
(all four are always present after a successful load). -/
def searchText (r : Record) : String :=
  r.title ++ " " ++ r.organisation ++ " " ++ r.summary ++ " " ++ r.scope

/-- ASCII lowercasing of a string as a character list (`case=False` sets
`re.IGNORECASE`, which on this ASCII fragment is lowercasing both sides). -/
def lowerData (s : String) : List Char :=
  s.data.map Char.toLower

/-- `str.contains(query, case=False, na=False)` on one cell: compile the
query as a pattern and search the text, both lowercased. -/
def strContainsCI (query text : String) : Except String Bool :=
  (compileRegex (lowerData query) 0).map (fun ts => regexSearch ts (lowerData text))

/-- `simple_search(df_in, query)`: empty query returns the input unchanged;
otherwise keep the rows whose concatenated text matches the query pattern.
A malformed pattern propagates the regex compile error (pandas raises). -/
def simple_search (rs : List Record) (query : String) : Except String (List Record) :=
  if query = "" then .ok rs
  else
    (compileRegex (lowerData query) 0).map (fun ts =>
      rs.filter (fun r => regexSearch ts (lowerData (searchText r))))

/-- Whether the first character list occurs at the head of the second. -/
def litMatchAt : List Char → List Char → Bool
  | [], _ => true
  | _ :: _, [] => false
  | a :: as, b :: bs => a == b && litMatchAt as bs

/-- Literal substring containment: the needle occurs somewhere in the hay. -/
def litContains (needle : List Char) : List Char → Bool
  | [] => litMatchAt needle []
  | c :: cs => litMatchAt needle (c :: cs) || litContains needle cs

/-- Spec-side search, following the claim words rather than the source: a
case-insensitive literal substring containment test against the
concatenation of exactly the title, organisation and summary fields. -/
def simple_search_spec (rs : List Record) (query : String) : List Record :=
  if query = "" then rs
  else
    rs.filter (fun r =>
      litContains (lowerData query)
        (lowerData (r.title ++ " " ++ r.organisation ++ " " ++ r.summary)))

/-! ## Semantic search (`semantic_search`) -/

/-- Dot product of two embedding vectors (`sub_emb @ q_emb` row-wise). -/
def dotQ (a b : List ℚ) : ℚ :=
  ((a.zip b).map (fun p => p.1 * p.2)).sum

/-- A result row of semantic search: a record with the `similarity` column
attached (`result["similarity"] = sims[order]`). -/
structure ScoredRec where
  row : Record
  similarity : ℚ
deriving DecidableEq, Repr

/-- Index comparison for `np.argsort(-sims)`: ascending in `-sims`, i.e.
descending in `sims`; equal similarities are tie-broken by index, fixing one
refinement of the unspecified `np.argsort` tie order. -/
def simsLe (sims : List ℚ) (i j : Nat) : Bool :=
  decide (sims.getD j 0 < sims.getD i 0) || (sims.getD j 0 == sims.getD i 0 && i ≤ j)

/-- The ranking core of `semantic_search` once the guards have passed:
similarities by dot product against the query embedding, indices sorted by
descending similarity, truncated to `min top_k len`, rows re-ordered by the
sorted indices with the similarity column attached. -/
def semantic_core (fdf : List Record) (emb : Record → List ℚ) (qemb : List ℚ)
    (top_k : Nat) : List ScoredRec :=
  let sims := fdf.map (fun r => dotQ (emb r) qemb)
  let order := ((List.range fdf.length).mergeSort (simsLe sims)).take
    (min top_k fdf.length)
  order.filterMap (fun i => (fdf[i]?).map (fun r => ⟨r, sims.getD i 0⟩))

/-- `semantic_search(fdf, emb_df, query, top_k=100)`: returns the input
unchanged (left injection, no similarity column) when the query is empty,
the embedding table is absent or the filtered set is empty; otherwise ranks
by descending dot-product similarity.  The query embedding `qemb` is the
output of the external embedding oracle on the query text. -/
def semantic_search (fdf : List Record) (emb_df : Option (Record → List ℚ))
    (query : String) (qemb : List ℚ) (top_k : Nat := 100) :
    List Record ⊕ List ScoredRec :=
  if query = "" then .inl fdf
  else
    match emb_df with
    | none => .inl fdf
    | some emb =>
      if fdf.isEmpty then .inl fdf
      else .inr (semantic_core fdf emb qemb top_k)

/-! ## Maturity model (`MATURITY_SCALE`, `maturity_label`) -/

/-- The official level names (`MATURITY_SCALE`), as a total function on the
clamped index; indices outside 1..5 are unreachable after clamping (a Python
dict lookup there would raise). -/
def MATURITY_SCALE (i : ℤ) : String :=
  if i = 1 then "Beginning"
  else if i = 2 then "Emerging"
  else if i = 3 then "Learning"
  else if i = 4 then "Developing"
  else if i = 5 then "Mastering"
  else ""

/-- Python 3 `round` on the exact value of a float: round half to even.
Every average reachable in the dashboard (k/6 for integer k) either is
exactly representable at a tie (x.5) or sits at distance ≥ 1/6 from every
tie, so the exact-rational model agrees with the float computation. -/
def pyRound (q : ℚ) : ℤ :=
  if q - ⌊q⌋ < 1/2 then ⌊q⌋
  else if 1/2 < q - ⌊q⌋ then ⌊q⌋ + 1
  else if ⌊q⌋ % 2 = 0 then ⌊q⌋ else ⌊q⌋ + 1

/-- The clamped level index of `maturity_label`:
`idx = int(round(avg)); idx = max(1, min(5, idx))`. -/
def maturity_idx (avg : ℚ) : ℤ :=
  max 1 (min 5 (pyRound avg))

/-- `maturity_label(avg)`: map the average to the nearest official level. -/
def maturity_label (avg : ℚ) : String :=
  MATURITY_SCALE (maturity_idx avg)

/-- Spec-side label, following the claim words rather than the source:
round half UP to the nearest integer (`⌊avg + 1/2⌋`), clamp to [1,5],
look up the same table. -/
def maturity_label_spec (avg : ℚ) : String :=
  MATURITY_SCALE (max 1 (min 5 ⌊avg + 1/2⌋))

/-! ## Conflict rules (`conflict_for_target`) -/

/-- `conflict_for_target(lens_name, target_score, maturity_avg)`: flags
misalignments between maturity and ambitious targets.  The Python body is a
sequence of early-return checks: five rules guarded by
`low = level in ("Beginning", "Emerging")`, then three rules guarded by
`highish = level in ("Developing", "Mastering")`; anything else is `None`. -/
def conflict_for_target (lens_name : String) (target_score : ℤ) (maturity_avg : ℚ) :
    Option String :=
  let level := maturity_label maturity_avg
  let low := level == "Beginning" || level == "Emerging"
  let highish := level == "Developing" || level == "Mastering"
  if low && lens_name == "Delivery Mode" && decide (70 ≤ target_score) then
    some "Big bang delivery at Beginning or Emerging maturity is high risk. Consider phased delivery."
  else if low && lens_name == "Governance Structure" && decide (target_score ≤ 30) then
    some "Highly federated models at low maturity can fragment standards. Strengthen central controls first."
  else if low && lens_name == "Access Philosophy" && decide (target_score ≤ 30) then
    some "Wide democratisation needs strong basics. Start with controlled, role based access."
  else if low && lens_name == "Decision Model" && decide (70 ≤ target_score) then
    some "Highly data driven decisions need robust data quality, monitoring and skills."
  else if low && lens_name == "Motivation" && decide (70 ≤ target_score) then
    some "Innovation first without guardrails can raise risk. Keep compliance in the loop."
  else if highish && lens_name == "Delivery Mode" && decide (target_score ≤ 30) then
    some "At Developing or Mastering, being too incremental may under deliver benefits."
  else if highish && lens_name == "Governance Structure" && decide (80 ≤ target_score) then
    some "Highly centralised models may slow teams at higher maturity. Consider selective federation."
  else if highish && lens_name == "Access Philosophy" && decide (80 ≤ target_score) then
    some "Excessive control may limit value realisation. Revisit openness where safe."
  else
    none

/-! ## Lenses and gap analysis (`AXES`, the `tab_shift` gap block) -/

/-- The ten lenses: dimension name, left-pole label, right-pole label. -/
def AXES : List (String × String × String) :=
  [("Abstraction Level", "Conceptual", "Logical / Physical"),
   ("Adaptability", "Living", "Fixed"),
   ("Ambition", "Essential", "Transformational"),
   ("Coverage", "Horizontal", "Use-case-based"),
   ("Governance Structure", "Ecosystem / Federated", "Centralised"),
   ("Orientation", "Technology-focused", "Value-focused"),
   ("Motivation", "Compliance-driven", "Innovation-driven"),
   ("Access Philosophy", "Data-democratised", "Controlled access"),
   ("Delivery Mode", "Incremental", "Big Bang"),
   ("Decision Model", "Data-informed", "Data-driven")]

/-- One row of the gap table built in `tab_shift`.  `idx` is the original
row position carried by the pandas index, used implicitly by the stable
multi-column sort. -/
structure GapRow where
  idx : Nat
  lens : String
  current : ℤ
  target : ℤ
  change : ℤ
  magnitude : ℤ
  direction : String
  conflict : Bool
  conflict_note : String
deriving DecidableEq, Repr

/-- The loop body of the `tab_shift` gap computation, building one row from
an indexed `AXES` entry: `diff = target[d] - current[d]`, `mag = abs(diff)`,
direction toward the right pole for positive diff and the left pole for
negative, and the conflict annotation from `conflict_for_target`. -/
def gap_row_of (current target : List ℤ) (m_avg : ℚ)
    (p : Nat × String × String × String) : GapRow :=
  let i := p.1
  let d := p.2.1
  let left_lbl := p.2.2.1
  let right_lbl := p.2.2.2
  let cur := current.getD i 0
  let tgt := target.getD i 0
  let diff := tgt - cur
  let conflict := conflict_for_target d tgt m_avg
  { idx := i
    lens := d
    current := cur
    target := tgt
    change := diff
    magnitude := |diff|
    direction :=
      if 0 < diff then "toward **" ++ right_lbl ++ "**"
      else if diff < 0 then "toward **" ++ left_lbl ++ "**"
      else "no change"
    conflict := conflict.isSome
    conflict_note := conflict.getD "" }

/-- The unsorted gap rows, one per lens in `AXES` order.  Current and target
profiles are positional lists aligned with `AXES` (the session dictionaries
have exactly the ten dimension names as keys). -/
def gap_rows (current target : List ℤ) (m_avg : ℚ) : List GapRow :=
  AXES.enum.map (gap_row_of current target m_avg)

/-- The comparison used by
`sort_values(["Conflict", "Magnitude"], ascending=[False, False])`:
conflict-flagged rows first, then larger magnitude first.  A multi-column
pandas sort is a stable lexsort, so ties keep the original index order; the
index tiebreak makes the relation total and realises that stability. -/
def gapLe (a b : GapRow) : Bool :=
  if a.conflict = b.conflict then
    if a.magnitude = b.magnitude then a.idx ≤ b.idx
    else decide (b.magnitude < a.magnitude)
  else a.conflict

/-- The sorted gap table `gap_df`. -/
def gap_df (current target : List ℤ) (m_avg : ℚ) : List GapRow :=
  (gap_rows current target m_avg).mergeSort gapLe

/-! ## Session state and the Shift tab (`tab_shift`) -/

/-- One row of the seeded actions table (`st.session_state["_actions_df"]`),
with the columns written by the Shift tab seeding loop. -/
structure ActionRow where
  priority : Nat
  lens : String
  direction : String
  owner : String
  timeline : String
  metric : String
  status : String
deriving DecidableEq, Repr

/-- The session-scoped state touched by the Diagnose/Shift flow: the six
maturity scores, the ten current and target lens scores (positional, in
theme/`AXES` order) and the actions table. -/
structure SessionState where
  maturity_scores : List ℤ
  current_scores : List ℤ
  target_scores : List ℤ
  actions_df : List ActionRow
deriving DecidableEq, Repr

/-- The average maturity `m_avg = sum(m_scores.values()) / len(m_scores)`
(`0` when empty, per the `if m_scores else 0` guard). -/
def m_avg_of (scores : List ℤ) : ℚ :=
  if scores.isEmpty then 0 else ((scores.map (fun z => (z : ℚ))).sum) / scores.length

/-- The action-seed direction string built in the Shift tab
(`f"toward {right_lbl}"`, without the markdown bold of the table column). -/
def seed_direction (row : GapRow) : String :=
  let left_lbl := ((AXES.filter (fun a => a.1 == row.lens)).map (fun a => a.2.1)).getD 0 ""
  let right_lbl := ((AXES.filter (fun a => a.1 == row.lens)).map (fun a => a.2.2)).getD 0 ""
  if 0 < row.change then "toward " ++ right_lbl
  else if row.change < 0 then "toward " ++ left_lbl
  else "no change"

/-- The seeded actions table: the top `TOP_N = 3` rows of the sorted gap
table, numbered from 1, with blank owner/timeline/metric/status. -/
def seed_actions (gaps : List GapRow) : List ActionRow :=
  ((gaps.take 3).enum).map (fun p =>
    { priority := p.1 + 1
      lens := p.2.lens
      direction := seed_direction p.2
      owner := ""
      timeline := ""
      metric := ""
      status := "" })

/-- The state transition performed by rendering the Shift tab: the gap table
is recomputed from the slider state and the top rows are written into
`st.session_state["_actions_df"]`; no other session key is assigned. -/
def tab_shift_update (s : SessionState) : SessionState :=
  let gaps := gap_df s.current_scores s.target_scores (m_avg_of s.maturity_scores)
  { s with actions_df := seed_actions gaps }

/-! ## Sample data used by concrete counterexamples and witnesses -/

/-- A record with every text field blank and no year. -/
def blankRecord : Record :=
  { id := "", title := "", organisation := "", org_type := "", country := "",
    year := none, scope := "", link := "", summary := "", source := "",
    date_added := "" }

/-- A record whose year is absent (NaN after numeric coercion). -/
def recNoYear : Record :=
  { blankRecord with id := "1", title := "Strategy A" }

/-- A record with year 2020. -/
def rec2020 : Record :=
  { blankRecord with id := "2", title := "Strategy B", year := some 2020 }

/-- A record whose only occurrence of the word "agriculture" is in `scope`. -/
def recScope : Record :=
  { blankRecord with
    id := "3"
    title := "Data plan"
    organisation := "Org"
    summary := "A summary"
    scope := "agriculture" }

/-- A record whose title contains the characters "abc". -/
def recAbc : Record :=
  { blankRecord with id := "4", title := "abc" }

/-- Default row used with `List.getD` when indexing gap tables. -/
def gapRowDefault : GapRow :=
  { idx := 0, lens := "", current := 0, target := 0, change := 0,
    magnitude := 0, direction := "", conflict := false, conflict_note := "" }

/-- The default session state created by `ensure_sessions`: all six maturity
scores 3, all twenty lens scores 50, an empty actions table. -/
def s0 : SessionState :=
  { maturity_scores := [3, 3, 3, 3, 3, 3]
    current_scores := [50, 50, 50, 50, 50, 50, 50, 50, 50, 50]
    target_scores := [50, 50, 50, 50, 50, 50, 50, 50, 50, 50]
    actions_df := [] }

/-- Example current profile for the C6 example row (Delivery Mode at 20). -/
def exCurrent : List ℤ := [50, 50, 50, 50, 50, 50, 50, 50, 20, 50]

/-- Example target profile for the C6 example row (Delivery Mode at 80). -/
def exTarget : List ℤ := [50, 50, 50, 50, 50, 50, 50, 50, 80, 50]

/-! ## Theorems -/

/-- C7: loading a delimited input whose header lacks one or more required
columns fails with a schema error that names the missing columns (every
absent required column is in the reported list), and no record set is
produced. -/
theorem load_missing_required_schema_error (csv : Csv)
    (h : ∃ c ∈ REQUIRED, c ∉ csv.header) :
    load_data csv =
      .error (.schemaError (REQUIRED.filter (fun c => !(csv.header.contains c)))) ∧
    (∀ c ∈ REQUIRED, c ∉ csv.header →
      c ∈ REQUIRED.filter (fun c => !(csv.header.contains c))) ∧
    (∀ rs, load_data csv ≠ .ok rs) := by
  obtain ⟨c, hc, hnc⟩ := h
  have hmem : c ∈ REQUIRED.filter (fun c => !(csv.header.contains c)) := by
    simp only [List.mem_filter, Bool.not_eq_true']
    exact ⟨hc, by simpa using hnc⟩
  have hne : (REQUIRED.filter (fun c => !(csv.header.contains c))).isEmpty = false := by
    rcases he : REQUIRED.filter (fun c => !(csv.header.contains c)) with _ | ⟨a, l⟩
    · rw [he] at hmem; simp at hmem
    · rfl
  have hload : load_data csv =
      .error (.schemaError (REQUIRED.filter (fun c => !(csv.header.contains c)))) := by
    simp [load_data, hne]
    exact ⟨c, hc, hnc⟩
  refine ⟨hload, ?_, ?_⟩
  · intro d hd hnd
    simp only [List.mem_filter, Bool.not_eq_true']
    exact ⟨hd, by simpa using hnd⟩
  · intro rs hrs
    rw [hload] at hrs
    exact Except.noConfusion hrs

/-- C7 witness: loading a CSV whose header lacks `organisation` raises the
schema error naming `organisation`. -/
theorem load_missing_required_schema_error_witness :
    load_data ⟨["id", "title", "org_type", "country", "year", "scope", "link",
                "summary", "source", "date_added"], []⟩
      = .error (.schemaError ["organisation"]) ∧
    "organisation" ∈ (["organisation"] : List String) := by
  refine ⟨?_, by decide⟩
  have h := (load_missing_required_schema_error
    ⟨["id", "title", "org_type", "country", "year", "scope", "link",
      "summary", "source", "date_added"], []⟩
    ⟨"organisation", by decide, by decide⟩).1
  rw [h]
  decide

/-- C1 counterexample: the record `recNoYear` has an absent year, yet the
year-range predicate with bounds [2000, 2024] evaluates to `false` on it and
the filter pipeline drops it — refuting the claim that a record with an
absent year always passes any year filter. -/
theorem absent_year_passes_cex :
    recNoYear.year = none ∧
    yearBetween 2000 2024 recNoYear = false ∧
    recNoYear ∉ apply_filters [recNoYear] (some (2000, 2024)) [] [] [] := by
  refine ⟨rfl, by decide, by decide⟩

/-- C1 amended: a record whose year is absent is always EXCLUDED by an
active year-range filter, for every bound: the pandas `between` test is
`False` on NaN, so the predicate never passes an absent year. -/
theorem absent_year_excluded (lo hi : ℚ) (r : Record) (h : r.year = none) :
    yearBetween lo hi r = false ∧
    ∀ rs : List Record, r ∉ rs.filter (yearBetween lo hi) := by
  have h1 : yearBetween lo hi r = false := by
    simp [yearBetween, h]
  refine ⟨h1, fun rs hmem => ?_⟩
  have h2 := (List.mem_filter.mp hmem).2
  rw [h1] at h2
  exact Bool.noConfusion h2

/-- C1 amended witness: at bounds [2000, 2024] the absent-year record is
excluded from a singleton list. -/
theorem absent_year_excluded_witness :
    yearBetween 2000 2024 recNoYear = false ∧
    recNoYear ∉ [recNoYear].filter (yearBetween 2000 2024) :=
  ⟨(absent_year_excluded 2000 2024 recNoYear rfl).1,
   (absent_year_excluded 2000 2024 recNoYear rfl).2 [recNoYear]⟩

/-- C3 counterexample: with a record set containing an absent-year record
and a 2020 record, the year slider covering all present years ([2020, 2020])
and every other criterion unrestricted, the pipeline drops the absent-year
record — the identity law fails as stated. -/
theorem filters_identity_cex :
    recNoYear.year = none ∧
    rec2020.year = some 2020 ∧
    apply_filters [recNoYear, rec2020] (some (2020, 2020)) [] [] [] = [rec2020] ∧
    apply_filters [recNoYear, rec2020] (some (2020, 2020)) [] [] [] ≠
      [recNoYear, rec2020] := by
  refine ⟨rfl, rfl, by decide, by decide⟩

/-- C3 amended: the no-restriction pipeline is the identity, in order,
provided every record has a present year (with the year bound covering all
years); it is unconditionally the identity when the year filter is inactive
or the query is empty. -/
theorem filters_identity (rs : List Record) (lo hi : ℚ)
    (hsome : ∀ r ∈ rs, r.year ≠ none)
    (hcov : ∀ r ∈ rs, ∀ y : ℚ, r.year = some y → lo ≤ y ∧ y ≤ hi) :
    apply_filters rs (some (lo, hi)) [] [] [] = rs ∧
    (∀ rs2 : List Record, apply_filters rs2 none [] [] [] = rs2) ∧
    (∀ rs2 : List Record, simple_search rs2 "" = .ok rs2) := by
  refine ⟨?_, fun rs2 => by simp [apply_filters], fun rs2 => by simp [simple_search]⟩
  have hstep : apply_filters rs (some (lo, hi)) [] [] [] = rs.filter (yearBetween lo hi) := by
    simp [apply_filters]
  rw [hstep]
  apply List.filter_eq_self.mpr
  intro r hr
  rcases hy : r.year with _ | y
  · exact absurd hy (hsome r hr)
  · have hb := hcov r hr y hy
    simp [yearBetween, hy, hb.1, hb.2]

/-- C3 amended witness: on a singleton list whose year is present and
covered, the pipeline is the identity. -/
theorem filters_identity_witness :
    apply_filters [rec2020] (some (2020, 2020)) [] [] [] = [rec2020] :=
  (filters_identity [rec2020] 2020 2020
    (by decide)
    (fun r hr y hy => by
      simp only [List.mem_singleton] at hr
      subst hr
      simp only [rec2020, blankRecord, Option.some.injEq] at hy
      subst hy
      exact ⟨by norm_num, by norm_num⟩)).1

/-- C4 counterexample: the query "agriculture" occurs only in the `scope`
field of `recScope`; the implemented search matches the record, while a
containment test over exactly title, organisation and summary (the claim)
does not — the searched text includes the scope column. -/
theorem simple_search_fields_cex :
    simple_search [recScope] "agriculture" = .ok [recScope] ∧
    simple_search_spec [recScope] "agriculture" = [] ∧
    litContains (lowerData "agriculture")
      (lowerData (recScope.title ++ " " ++ recScope.organisation ++ " " ++
        recScope.summary)) = false := by
  refine ⟨by decide, by decide, by decide⟩

/-- C4 amended: for every record list and non-empty query whose pattern
compiles, substring-mode search filters on a case-insensitive pattern match
against the concatenation of the title, organisation, summary AND scope
fields, and the result is a sublist of the input (an order-preserving
subset, with no score attached). -/
theorem simple_search_amended (rs : List Record) (q : String) (ts : List RTok)
    (hq : q ≠ "") (hc : compileRegex (lowerData q) 0 = .ok ts) :
    simple_search rs q =
      .ok (rs.filter (fun r => regexSearch ts (lowerData (searchText r)))) ∧
    (rs.filter (fun r => regexSearch ts (lowerData (searchText r)))).Sublist rs := by
  refine ⟨?_, List.filter_sublist rs⟩
  simp [simple_search, hq, hc, Except.map]

/-- C4 amended witness: the query "plan" (a literal pattern) on a singleton
list returns the filtered sublist. -/
theorem simple_search_amended_witness :
    simple_search [recScope] "plan" =
      .ok ([recScope].filter (fun r =>
        regexSearch [RTok.lit 'p', RTok.lit 'l', RTok.lit 'a', RTok.lit 'n']
          (lowerData (searchText r)))) ∧
    ([recScope].filter (fun r =>
        regexSearch [RTok.lit 'p', RTok.lit 'l', RTok.lit 'a', RTok.lit 'n']
          (lowerData (searchText r)))).Sublist [recScope] :=
  simple_search_amended [recScope] "plan"
    [RTok.lit 'p', RTok.lit 'l', RTok.lit 'a', RTok.lit 'n']
    (by decide) (by decide)

/-- C10: substring-mode search is not literal containment: the query "a.c"
matches a record whose text contains "abc" but not the literal characters
"a.c" (the dot is a pattern metacharacter), and the unbalanced query "("
makes the search raise a pattern error instead of returning a subset. -/
theorem simple_search_regex_behaviour :
    simple_search [recAbc] "a.c" = .ok [recAbc] ∧
    litContains (lowerData "a.c") (lowerData (searchText recAbc)) = false ∧
    simple_search [recAbc] "(" = .error "missing ), unterminated subpattern" := by
  refine ⟨by decide, by decide, by decide⟩

/-- `pyRound` never rounds below the floor. -/
theorem pyRound_ge (q : ℚ) : ⌊q⌋ ≤ pyRound q := by
  unfold pyRound
  split_ifs <;> omega

/-- `pyRound` never rounds above the floor plus one. -/
theorem pyRound_le (q : ℚ) : pyRound q ≤ ⌊q⌋ + 1 := by
  unfold pyRound
  split_ifs <;> omega

/-- Below the midpoint, `pyRound` rounds down. -/
theorem pyRound_lt_half {q : ℚ} (h : q - ⌊q⌋ < 1/2) : pyRound q = ⌊q⌋ := by
  unfold pyRound
  rw [if_pos h]

/-- Above the midpoint, `pyRound` rounds up. -/
theorem pyRound_gt_half {q : ℚ} (h : 1/2 < q - ⌊q⌋) : pyRound q = ⌊q⌋ + 1 := by
  unfold pyRound
  rw [if_neg (by linarith), if_pos h]

/-- At an exact midpoint with even floor, `pyRound` rounds down. -/
theorem pyRound_tie_even {q : ℚ} (h : q - ⌊q⌋ = 1/2) (he : ⌊q⌋ % 2 = 0) :
    pyRound q = ⌊q⌋ := by
  unfold pyRound
  rw [if_neg (by linarith), if_neg (by linarith), if_pos he]

/-- At an exact midpoint with odd floor, `pyRound` rounds up. -/
theorem pyRound_tie_odd {q : ℚ} (h : q - ⌊q⌋ = 1/2) (he : ¬ ⌊q⌋ % 2 = 0) :
    pyRound q = ⌊q⌋ + 1 := by
  unfold pyRound
  rw [if_neg (by linarith), if_neg (by linarith), if_neg he]

/-- Half-to-even rounding is monotone. -/
theorem pyRound_mono {a b : ℚ} (hab : a ≤ b) : pyRound a ≤ pyRound b := by
  rcases lt_or_le ⌊a⌋ ⌊b⌋ with hf | hf
  · have h1 := pyRound_le a
    have h2 := pyRound_ge b
    omega
  · have hf2 : ⌊a⌋ = ⌊b⌋ := le_antisymm (Int.floor_mono hab) hf
    have hfl : (⌊a⌋ : ℚ) ≤ a := Int.floor_le a
    unfold pyRound
    rw [hf2]
    split_ifs <;> first | omega | (exfalso; rw [hf2] at *; linarith)

/-- On [3/2, 5/2] the rounded value is 2 (including both tie endpoints:
1.5 rounds up to 2 since 1 is odd; 2.5 rounds down to 2 since 2 is even). -/
theorem pyRound_band_two {q : ℚ} (h1 : 3/2 ≤ q) (h2 : q ≤ 5/2) : pyRound q = 2 := by
  have hf12 : ⌊q⌋ = 1 ∨ ⌊q⌋ = 2 := by
    have hg : (1 : ℤ) ≤ ⌊q⌋ := by
      rw [Int.le_floor]
      push_cast
      linarith
    have hl : ⌊q⌋ < 3 := by
      rw [Int.floor_lt]
      push_cast
      linarith
    omega
  rcases hf12 with hf | hf
  · have hh : 1/2 ≤ q - ⌊q⌋ := by
      rw [hf]
      push_cast
      linarith
    rcases eq_or_lt_of_le hh with ht | ht
    · rw [pyRound_tie_odd ht.symm (by rw [hf]; decide)]
      omega
    · rw [pyRound_gt_half ht]
      omega
  · have hh : q - ⌊q⌋ ≤ 1/2 := by
      rw [hf]
      push_cast
      linarith
    rcases lt_or_eq_of_le hh with ht | ht
    · rw [pyRound_lt_half ht]
      omega
    · rw [pyRound_tie_even ht (by rw [hf]; decide)]
      omega

/-- On (5/2, 7/2) the rounded value is 3. -/
theorem pyRound_band_three {q : ℚ} (h1 : 5/2 < q) (h2 : q < 7/2) : pyRound q = 3 := by
  have hf23 : ⌊q⌋ = 2 ∨ ⌊q⌋ = 3 := by
    have hg : (2 : ℤ) ≤ ⌊q⌋ := by
      rw [Int.le_floor]
      push_cast
      linarith
    have hl : ⌊q⌋ < 4 := by
      rw [Int.floor_lt]
      push_cast
      linarith
    omega
  rcases hf23 with hf | hf
  · have hh : 1/2 < q - ⌊q⌋ := by
      rw [hf]
      push_cast
      linarith
    rw [pyRound_gt_half hh]
    omega
  · have hh : q - ⌊q⌋ < 1/2 := by
      rw [hf]
      push_cast
      linarith
    rw [pyRound_lt_half hh]
    omega

/-- On [7/2, 9/2] the rounded value is 4 (3.5 rounds up since 3 is odd;
4.5 rounds down since 4 is even). -/
theorem pyRound_band_four {q : ℚ} (h1 : 7/2 ≤ q) (h2 : q ≤ 9/2) : pyRound q = 4 := by
  have hf34 : ⌊q⌋ = 3 ∨ ⌊q⌋ = 4 := by
    have hg : (3 : ℤ) ≤ ⌊q⌋ := by
      rw [Int.le_floor]
      push_cast
      linarith
    have hl : ⌊q⌋ < 5 := by
      rw [Int.floor_lt]
      push_cast
      linarith
    omega
  rcases hf34 with hf | hf
  · have hh : 1/2 ≤ q - ⌊q⌋ := by
      rw [hf]
      push_cast
      linarith
    rcases eq_or_lt_of_le hh with ht | ht
    · rw [pyRound_tie_odd ht.symm (by rw [hf]; decide)]
      omega
    · rw [pyRound_gt_half ht]
      omega
  · have hh : q - ⌊q⌋ ≤ 1/2 := by
      rw [hf]
      push_cast
      linarith
    rcases lt_or_eq_of_le hh with ht | ht
    · rw [pyRound_lt_half ht]
      omega
    · rw [pyRound_tie_even ht (by rw [hf]; decide)]
      omega

/-- Below 3/2 the rounded value is at most 1. -/
theorem pyRound_low {q : ℚ} (h : q < 3/2) : pyRound q ≤ 1 := by
  have hfle : ⌊q⌋ ≤ 1 := by
    have : ⌊q⌋ < 2 := by
      rw [Int.floor_lt]
      push_cast
      linarith
    omega
  rcases lt_or_eq_of_le hfle with hf | hf
  · have := pyRound_le q
    omega
  · have hh : q - ⌊q⌋ < 1/2 := by
      rw [hf]
      push_cast
      linarith
    rw [pyRound_lt_half hh]
    omega

/-- Above 9/2 the rounded value is at least 5. -/
theorem pyRound_high {q : ℚ} (h : 9/2 < q) : 5 ≤ pyRound q := by
  have hfge : 4 ≤ ⌊q⌋ := by
    rw [Int.le_floor]
    push_cast
    linarith
  rcases lt_or_eq_of_le hfge with hf | hf
  · have := pyRound_ge q
    omega
  · have hh : 1/2 < q - ⌊q⌋ := by
      rw [← hf]
      push_cast
      linarith
    rw [pyRound_gt_half hh]
    omega

/-- C2 counterexample: at the tie average 2.5 (e.g. six theme levels
2,2,2,3,3,3) the code rounds half to even — `int(round(2.5)) = 2`, label
"Emerging" — while the claimed round-half-up rule would give level 3,
label "Learning". -/
theorem maturity_label_half_up_cex :
    maturity_label (5/2) = "Emerging" ∧
    maturity_label_spec (5/2) = "Learning" ∧
    maturity_label (5/2) ≠ maturity_label_spec (5/2) := by
  have h1 : maturity_label (5/2) = "Emerging" := by
    norm_num [maturity_label, maturity_idx, pyRound, MATURITY_SCALE]
  have h2 : maturity_label_spec (5/2) = "Learning" := by
    norm_num [maturity_label_spec, MATURITY_SCALE]
  refine ⟨h1, h2, ?_⟩
  rw [h1, h2]
  decide

/-- C2 amended: `maturity_label` rounds the average to the nearest integer
with ties rounding HALF TO EVEN (Python 3 `round`), clamps to [1,5] and
looks up the fixed table; the label is monotonically non-decreasing in the
average, with band boundaries at 1.5, 2.5, 3.5, 4.5 where the exact halves
1.5 and 3.5 round up but 2.5 and 4.5 round down to the even level. -/
theorem maturity_label_amended :
    (∀ a b : ℚ, a ≤ b → maturity_idx a ≤ maturity_idx b) ∧
    (∀ q : ℚ, q < 3/2 → maturity_label q = "Beginning") ∧
    (∀ q : ℚ, 3/2 ≤ q → q ≤ 5/2 → maturity_label q = "Emerging") ∧
    (∀ q : ℚ, 5/2 < q → q < 7/2 → maturity_label q = "Learning") ∧
    (∀ q : ℚ, 7/2 ≤ q → q ≤ 9/2 → maturity_label q = "Developing") ∧
    (∀ q : ℚ, 9/2 < q → maturity_label q = "Mastering") := by
  refine ⟨?_, ?_, ?_, ?_, ?_, ?_⟩
  · intro a b hab
    have := pyRound_mono hab
    simp only [maturity_idx]
    omega
  · intro q h
    have hp := pyRound_low h
    have hidx : maturity_idx q = 1 := by
      simp only [maturity_idx]
      omega
    simp [maturity_label, hidx, MATURITY_SCALE]
  · intro q h1 h2
    have hp := pyRound_band_two h1 h2
    have hidx : maturity_idx q = 2 := by
      simp only [maturity_idx, hp]
      omega
    simp [maturity_label, hidx, MATURITY_SCALE]
  · intro q h1 h2
    have hp := pyRound_band_three h1 h2
    have hidx : maturity_idx q = 3 := by
      simp only [maturity_idx, hp]
      omega
    simp [maturity_label, hidx, MATURITY_SCALE]
  · intro q h1 h2
    have hp := pyRound_band_four h1 h2
    have hidx : maturity_idx q = 4 := by
      simp only [maturity_idx, hp]
      omega
    simp [maturity_label, hidx, MATURITY_SCALE]
  · intro q h
    have hp := pyRound_high h
    have hidx : maturity_idx q = 5 := by
      simp only [maturity_idx]
      omega
    simp [maturity_label, hidx, MATURITY_SCALE]

/-- C2 amended witness: monotonicity applied at 1 ≤ 2, and the Emerging
band applied at the tie point 2.5. -/
theorem maturity_label_amended_witness :
    maturity_idx (1 : ℚ) ≤ maturity_idx 2 ∧ maturity_label (5/2) = "Emerging" :=
  ⟨maturity_label_amended.1 1 2 (by norm_num),
   maturity_label_amended.2.2.1 (5/2) (by norm_num) (by norm_num)⟩

/-- C5: the conflict rule warns only for extreme targets — whenever a
conflict is raised the target is ≥ 70 or ≤ 30; no conflict is ever raised
for a mid-range target in 31–69; and at mid maturity (label "Learning",
level 3, between the low band of levels 1–2 and the high band of levels
4–5) no conflict is raised for any dimension. -/
theorem conflict_only_extreme (lens : String) (t : ℤ) (m : ℚ) :
    ((conflict_for_target lens t m).isSome = true → 70 ≤ t ∨ t ≤ 30) ∧
    (31 ≤ t → t ≤ 69 → conflict_for_target lens t m = none) ∧
    (maturity_label m = "Learning" → conflict_for_target lens t m = none) := by
  refine ⟨?_, ?_, ?_⟩
  · intro h
    simp only [conflict_for_target] at h
    split_ifs at h <;> simp_all <;> omega
  · intro ht1 ht2
    simp only [conflict_for_target]
    split_ifs <;> simp_all <;> omega
  · intro hl
    simp [conflict_for_target, hl]

/-- C5 witness: at mid maturity average 3 and the mid-range target 50 on
the Delivery Mode lens, no conflict is raised. -/
theorem conflict_only_extreme_witness :
    conflict_for_target "Delivery Mode" 50 3 = none ∧
    (31 : ℤ) ≤ 50 ∧ (50 : ℤ) ≤ 69 :=
  ⟨(conflict_only_extreme "Delivery Mode" 50 3).2.1 (by decide) (by decide),
   by decide, by decide⟩

/-- C9 counterexample: rendering the Shift tab from the default session
state does NOT leave session state unchanged: the actions table in session
state is overwritten with the 3-row top-gap seed. -/
theorem tab_shift_mutates_cex :
    tab_shift_update s0 ≠ s0 ∧
    (tab_shift_update s0).actions_df.length = 3 ∧
    s0.actions_df.length = 0 := by
  have hlen10 : (gap_df s0.current_scores s0.target_scores
      (m_avg_of s0.maturity_scores)).length = 10 := by
    simp [gap_df, gap_rows, AXES]
  have hseed : (seed_actions (gap_df s0.current_scores s0.target_scores
      (m_avg_of s0.maturity_scores))).length = 3 := by
    simp [seed_actions, hlen10]
  refine ⟨?_, ?_, rfl⟩
  · intro he
    have hl := congrArg (fun s => s.actions_df.length) he
    simp only [tab_shift_update] at hl
    rw [hseed] at hl
    simp [s0] at hl
  · simpa only [tab_shift_update] using hseed

/-- C9 amended: gap results are derived, not stored — the Shift tab
recomputes them from slider state, leaves the maturity, current and target
session values unchanged and is idempotent (re-rendering recomputes the same
results) — but it does write one session key: the actions table is
overwritten with the seed derived from the top three gaps. -/
theorem tab_shift_update_frame (s : SessionState) :
    (tab_shift_update s).maturity_scores = s.maturity_scores ∧
    (tab_shift_update s).current_scores = s.current_scores ∧
    (tab_shift_update s).target_scores = s.target_scores ∧
    (tab_shift_update s).actions_df =
      seed_actions (gap_df s.current_scores s.target_scores
        (m_avg_of s.maturity_scores)) ∧
    tab_shift_update (tab_shift_update s) = tab_shift_update s :=
  ⟨rfl, rfl, rfl, rfl, rfl⟩

/-- `gapLe` as a proposition: conflicts first, then larger magnitude, then
original index. -/
theorem gapLe_iff {a b : GapRow} : gapLe a b = true ↔
    (a.conflict = true ∧ b.conflict = false) ∨
    (a.conflict = b.conflict ∧ b.magnitude < a.magnitude) ∨
    (a.conflict = b.conflict ∧ a.magnitude = b.magnitude ∧ a.idx ≤ b.idx) := by
  rcases ha : a.conflict <;> rcases hb : b.conflict <;>
    by_cases hm : a.magnitude = b.magnitude <;>
      simp [gapLe, ha, hb, hm]

/-- `gapLe` is total. -/
theorem gapLe_total (a b : GapRow) : (gapLe a b || gapLe b a) = true := by
  rcases h1 : gapLe a b
  · rcases h2 : gapLe b a
    · exfalso
      rw [Bool.eq_false_iff] at h1 h2
      rw [Ne, gapLe_iff] at h1 h2
      rcases ha : a.conflict <;> rcases hb : b.conflict <;>
        simp [ha, hb] at h1 h2 <;> omega
    · rfl
  · rfl

/-- `gapLe` is transitive. -/
theorem gapLe_trans (a b c : GapRow) (h1 : gapLe a b) (h2 : gapLe b c) :
    gapLe a c := by
  rw [gapLe_iff] at h1 h2 ⊢
  rcases ha : a.conflict <;> rcases hb : b.conflict <;> rcases hc : c.conflict <;>
    simp [ha, hb, hc] at h1 h2 ⊢ <;> omega

/-- Field correctness of one constructed gap row at index `i`. -/
theorem gap_row_of_spec (c t : List ℤ) (m : ℚ) (i : Nat)
    (ax : String × String × String)
    (hax : AXES.getD i ("", "", "") = ax) :
    let r := gap_row_of c t m (i, ax)
    r.idx = i ∧
    r.lens = (AXES.getD r.idx ("", "", "")).1 ∧
    r.current = c.getD r.idx 0 ∧
    r.target = t.getD r.idx 0 ∧
    r.change = r.target - r.current ∧
    r.magnitude = |r.change| ∧
    (0 < r.change →
      r.direction = "toward **" ++ (AXES.getD r.idx ("", "", "")).2.2 ++ "**") ∧
    (r.change < 0 →
      r.direction = "toward **" ++ (AXES.getD r.idx ("", "", "")).2.1 ++ "**") ∧
    (r.change = 0 → r.direction = "no change") ∧
    r.conflict = (conflict_for_target r.lens r.target m).isSome := by
  refine ⟨rfl, ?_, rfl, rfl, rfl, rfl, ?_, ?_, ?_, rfl⟩
  · show ax.1 = (AXES.getD i ("", "", "")).1
    rw [hax]
  · intro h
    have h' : 0 < t.getD i 0 - c.getD i 0 := h
    show (if 0 < t.getD i 0 - c.getD i 0 then "toward **" ++ ax.2.2 ++ "**"
        else if t.getD i 0 - c.getD i 0 < 0 then "toward **" ++ ax.2.1 ++ "**"
        else "no change")
      = "toward **" ++ (AXES.getD i ("", "", "")).2.2 ++ "**"
    rw [if_pos h', hax]
  · intro h
    have h' : t.getD i 0 - c.getD i 0 < 0 := h
    show (if 0 < t.getD i 0 - c.getD i 0 then "toward **" ++ ax.2.2 ++ "**"
        else if t.getD i 0 - c.getD i 0 < 0 then "toward **" ++ ax.2.1 ++ "**"
        else "no change")
      = "toward **" ++ (AXES.getD i ("", "", "")).2.1 ++ "**"
    rw [if_neg (by omega), if_pos h', hax]
  · intro h
    have h' : t.getD i 0 - c.getD i 0 = 0 := h
    show (if 0 < t.getD i 0 - c.getD i 0 then "toward **" ++ ax.2.2 ++ "**"
        else if t.getD i 0 - c.getD i 0 < 0 then "toward **" ++ ax.2.1 ++ "**"
        else "no change")
      = "no change"
    rw [if_neg (by omega), if_neg (by omega)]

/-- C6: the gap computation yields one row per each of the ten dimensions
with signed delta = target − current, magnitude = |delta|, direction toward
the right pole for positive delta and the left pole for negative delta
(e.g. Delivery Mode current=20, target=80 gives delta +60 toward Big Bang),
and the sorted output is a permutation of the rows ordered with
conflict-flagged rows first, then by descending magnitude, ties broken by
the original dimension order. -/
theorem gap_df_ordered (current target : List ℤ) (m_avg : ℚ) :
    (gap_rows current target m_avg).length = 10 ∧
    (∀ r ∈ gap_rows current target m_avg,
      r.lens = (AXES.getD r.idx ("", "", "")).1 ∧
      r.current = current.getD r.idx 0 ∧
      r.target = target.getD r.idx 0 ∧
      r.change = r.target - r.current ∧
      r.magnitude = |r.change| ∧
      (0 < r.change →
        r.direction = "toward **" ++ (AXES.getD r.idx ("", "", "")).2.2 ++ "**") ∧
      (r.change < 0 →
        r.direction = "toward **" ++ (AXES.getD r.idx ("", "", "")).2.1 ++ "**") ∧
      (r.change = 0 → r.direction = "no change") ∧
      r.conflict = (conflict_for_target r.lens r.target m_avg).isSome) ∧
    (gap_df current target m_avg).Perm (gap_rows current target m_avg) ∧
    (gap_df current target m_avg).Pairwise (fun a b =>
      (a.conflict = true ∧ b.conflict = false) ∨
      (a.conflict = b.conflict ∧ b.magnitude < a.magnitude) ∨
      (a.conflict = b.conflict ∧ a.magnitude = b.magnitude ∧ a.idx < b.idx)) ∧
    ((gap_rows exCurrent exTarget 3).getD 8 gapRowDefault).lens = "Delivery Mode" ∧
    ((gap_rows exCurrent exTarget 3).getD 8 gapRowDefault).change = 60 ∧
    ((gap_rows exCurrent exTarget 3).getD 8 gapRowDefault).magnitude = 60 ∧
    ((gap_rows exCurrent exTarget 3).getD 8 gapRowDefault).direction =
      "toward **Big Bang**" := by
  have hperm : (gap_df current target m_avg).Perm (gap_rows current target m_avg) :=
    List.mergeSort_perm _ _
  refine ⟨rfl, ?_, hperm, ?_, rfl, rfl, rfl, rfl⟩
  · intro r hr
    have henum : ∀ p ∈ AXES.enum, AXES.getD p.1 ("", "", "") = p.2 := by decide
    obtain ⟨p, hp, hpr⟩ := List.mem_map.mp hr
    have hs := gap_row_of_spec current target m_avg p.1 p.2 (henum p hp)
    rw [← hpr] at *
    obtain ⟨h1, h2, h3, h4, h5, h6, h7, h8, h9, h10⟩ := hs
    exact ⟨h2, h3, h4, h5, h6, h7, h8, h9, h10⟩
  · have hsorted : (gap_df current target m_avg).Pairwise (fun a b => gapLe a b = true) :=
      List.sorted_mergeSort
        (fun a b c h1 h2 => gapLe_trans a b c h1 h2)
        (fun a b => gapLe_total a b)
        (gap_rows current target m_avg)
    have hmapidx : (gap_rows current target m_avg).map (fun r => r.idx) =
        [0, 1, 2, 3, 4, 5, 6, 7, 8, 9] := rfl
    have hpermidx : ((gap_df current target m_avg).map (fun r => r.idx)).Perm
        [0, 1, 2, 3, 4, 5, 6, 7, 8, 9] := by
      rw [← hmapidx]
      exact hperm.map _
    have hnodup : ((gap_df current target m_avg).map (fun r => r.idx)).Nodup :=
      hpermidx.nodup_iff.mpr (by decide)
    have hne : (gap_df current target m_avg).Pairwise (fun a b => a.idx ≠ b.idx) :=
      List.pairwise_map.mp hnodup
    refine (hsorted.and hne).imp ?_
    intro a b hab
    obtain ⟨hle, hne2⟩ := hab
    rw [gapLe_iff] at hle
    rcases hle with h | h | h
    · exact Or.inl h
    · exact Or.inr (Or.inl h)
    · exact Or.inr (Or.inr ⟨h.1, h.2.1, lt_of_le_of_ne h.2.2 hne2⟩)

/-- `simsLe` orders indices by descending similarity. -/
theorem simsLe_le {sims : List ℚ} {i j : Nat} (h : simsLe sims i j) :
    sims.getD j 0 ≤ sims.getD i 0 := by
  unfold simsLe at h
  simp only [Bool.or_eq_true, Bool.and_eq_true, decide_eq_true_eq, beq_iff_eq] at h
  rcases h with h | ⟨h, _⟩
  · exact le_of_lt h
  · exact le_of_eq h

/-- `simsLe` is total. -/
theorem simsLe_total (sims : List ℚ) (i j : Nat) :
    (simsLe sims i j || simsLe sims j i) = true := by
  unfold simsLe
  simp only [Bool.or_eq_true, Bool.and_eq_true, decide_eq_true_eq, beq_iff_eq]
  rcases lt_trichotomy (sims.getD i 0) (sims.getD j 0) with h | h | h
  · exact Or.inr (Or.inl h)
  · rcases Nat.le_total i j with hij | hij
    · exact Or.inl (Or.inr ⟨h.symm, hij⟩)
    · exact Or.inr (Or.inr ⟨h, hij⟩)
  · exact Or.inl (Or.inl h)

/-- `simsLe` is transitive. -/
theorem simsLe_trans (sims : List ℚ) (i j k : Nat)
    (h1 : simsLe sims i j) (h2 : simsLe sims j k) : simsLe sims i k := by
  unfold simsLe at *
  simp only [Bool.or_eq_true, Bool.and_eq_true, decide_eq_true_eq, beq_iff_eq] at *
  rcases h1 with h1 | ⟨h1e, h1i⟩ <;> rcases h2 with h2 | ⟨h2e, h2i⟩
  · exact Or.inl (lt_trans h2 h1)
  · exact Or.inl (by rw [h2e]; exact h1)
  · exact Or.inl (by rw [← h1e]; exact h2)
  · exact Or.inr ⟨h2e.trans h1e, le_trans h1i h2i⟩

/-- When every index in the list is in bounds, re-indexing by `filterMap`
over optional lookups is an ordinary `map` over defaulted lookups. -/
theorem filterMap_index_map (fdf : List Record) (g : Nat → Record → ScoredRec) :
    ∀ l : List Nat, (∀ i ∈ l, i < fdf.length) →
      l.filterMap (fun i => (fdf[i]?).map (g i)) =
        l.map (fun i => g i (fdf.getD i blankRecord))
  | [], _ => rfl
  | x :: xs, h => by
    have hx : x < fdf.length := h x (List.mem_cons_self x xs)
    have hrest : ∀ i ∈ xs, i < fdf.length := fun i hi => h i (List.mem_cons_of_mem x hi)
    simp only [List.filterMap_cons, List.map_cons, List.getElem?_eq_getElem hx,
      Option.map_some']
    rw [filterMap_index_map fdf g xs hrest]
    have hgd : fdf.getD x blankRecord = fdf[x] := by
      rw [List.getD_eq_getElem?_getD, List.getElem?_eq_getElem hx]
      rfl
    rw [hgd]

/-- The ranking core returns `min top_k n` rows drawn from the input with
the dot-product similarity attached, in descending similarity order. -/
theorem semantic_core_spec (fdf : List Record) (emb : Record → List ℚ)
    (qemb : List ℚ) (top_k : Nat) :
    (semantic_core fdf emb qemb top_k).length = min top_k fdf.length ∧
    (∀ s ∈ semantic_core fdf emb qemb top_k,
      s.row ∈ fdf ∧ s.similarity = dotQ (emb s.row) qemb) ∧
    (semantic_core fdf emb qemb top_k).Pairwise
      (fun a b => b.similarity ≤ a.similarity) := by
  have hsims : ∀ i, i < fdf.length →
      (fdf.map (fun r => dotQ (emb r) qemb)).getD i 0 =
        dotQ (emb (fdf.getD i blankRecord)) qemb := by
    intro i hi
    rw [List.getD_eq_getElem?_getD, List.getElem?_map, List.getElem?_eq_getElem hi,
      List.getD_eq_getElem?_getD, List.getElem?_eq_getElem hi]
    rfl
  set sims := fdf.map (fun r => dotQ (emb r) qemb) with hsimsdef
  set sorted := (List.range fdf.length).mergeSort (simsLe sims) with hsorteddef
  have hsortedlen : sorted.length = fdf.length := by
    rw [hsorteddef, List.length_mergeSort, List.length_range]
  set order := sorted.take (min top_k fdf.length) with horderdef
  have hbound : ∀ i ∈ order, i < fdf.length := by
    intro i hi
    have h1 : i ∈ sorted := (List.take_sublist _ _).subset hi
    have h2 : i ∈ List.range fdf.length := by
      rw [hsorteddef] at h1
      exact List.mem_mergeSort.mp h1
    exact List.mem_range.mp h2
  have hcore : semantic_core fdf emb qemb top_k =
      order.map (fun i => ⟨fdf.getD i blankRecord, sims.getD i 0⟩) := by
    unfold semantic_core
    exact filterMap_index_map fdf _ order hbound
  refine ⟨?_, ?_, ?_⟩
  · rw [hcore, List.length_map, horderdef, List.length_take, hsortedlen]
    omega
  · intro s hs
    rw [hcore] at hs
    obtain ⟨i, hi, hsi⟩ := List.mem_map.mp hs
    have hilt := hbound i hi
    have hrow : fdf.getD i blankRecord ∈ fdf := by
      rw [List.getD_eq_getElem?_getD, List.getElem?_eq_getElem hilt]
      exact List.getElem_mem hilt
    constructor
    · rw [← hsi]
      exact hrow
    · rw [← hsi]
      exact hsims i hilt
  · rw [hcore]
    apply List.pairwise_map.mpr
    have hpw : order.Pairwise (fun i j => simsLe sims i j = true) := by
      apply List.Pairwise.sublist (List.take_sublist _ _)
      rw [hsorteddef]
      exact List.sorted_mergeSort
        (fun a b c h1 h2 => simsLe_trans sims a b c h1 h2)
        (fun a b => simsLe_total sims a b)
        (List.range fdf.length)
    exact hpw.imp (fun h => simsLe_le h)

/-- C8: with embeddings present, a non-empty query and a non-empty filtered
set, semantic search returns the ranked rows: each returned row is drawn
from the input and carries the dot product of the query embedding with the
row embedding as its similarity, at most top-K rows (exactly `min top_k n`)
are returned, in descending similarity order. -/
theorem semantic_search_ranked (fdf : List Record) (emb : Record → List ℚ)
    (query : String) (qemb : List ℚ) (top_k : Nat)
    (hq : query ≠ "") (hne : fdf ≠ []) :
    semantic_search fdf (some emb) query qemb top_k =
      .inr (semantic_core fdf emb qemb top_k) ∧
    (semantic_core fdf emb qemb top_k).length = min top_k fdf.length ∧
    (semantic_core fdf emb qemb top_k).length ≤ top_k ∧
    (∀ s ∈ semantic_core fdf emb qemb top_k,
      s.row ∈ fdf ∧ s.similarity = dotQ (emb s.row) qemb) ∧
    (semantic_core fdf emb qemb top_k).Pairwise
      (fun a b => b.similarity ≤ a.similarity) := by
  obtain ⟨hlen, hmem, hpw⟩ := semantic_core_spec fdf emb qemb top_k
  refine ⟨?_, hlen, ?_, hmem, hpw⟩
  · simp [semantic_search, hq, hne]
  · rw [hlen]
    exact Nat.min_le_left _ _

/-- C8 witness: two records with orthogonal unit embeddings, query embedding
equal to the second record's embedding, top-1: the search returns the ranked
output of length 1. -/
theorem semantic_search_ranked_witness :
    semantic_search [rec2020, recScope]
        (some (fun r => if r.id = "2" then [1, 0] else [0, 1])) "q" [0, 1] 1 =
      .inr (semantic_core [rec2020, recScope]
        (fun r => if r.id = "2" then [1, 0] else [0, 1]) [0, 1] 1) ∧
    (semantic_core [rec2020, recScope]
        (fun r => if r.id = "2" then [1, 0] else [0, 1]) [0, 1] 1).length = 1 :=
  ⟨(semantic_search_ranked [rec2020, recScope]
      (fun r => if r.id = "2" then [1, 0] else [0, 1]) "q" [0, 1] 1
      (by decide) (by decide)).1,
   ((semantic_search_ranked [rec2020, recScope]
      (fun r => if r.id = "2" then [1, 0] else [0, 1]) "q" [0, 1] 1
      (by decide) (by decide)).2.1).trans (by decide)⟩

end ThinkStudio
